import Mathlib

/-!
Shallow embedding of the conrod Slider widget (src/src/widget/slider.rs).

Numbers: the IEEE floating-point values of the Rust code are modelled as
exact extended rationals: a finite rational, NaN, plus infinity or minus
infinity.  Arithmetic on finite values is exact (the rounding of f32/f64
and the f32 narrowing casts in the source are not modelled); the IEEE
special-value rules (0/0 = NaN, x/0 = signed infinity, NaN propagation,
NaN incomparable under < and <=, NaN != NaN) are modelled, because the
slider's extent computation divides by the interior length, which may be
zero.  Signed zero is not modelled: the denominators in this code arise
from rational subtraction and never as -0.0.  Geometry inputs (widget
dimensions, frame thickness, mouse coordinates) are modelled as plain
rationals, since they come from the windowing system and the theme and
are always finite.
-/

namespace Conrod

/-- Extended rational model of an IEEE floating-point number. -/
inductive F where
  | fin (q : ℚ)
  | nan
  | pinf
  | ninf
deriving DecidableEq

namespace F

/-- IEEE negation. -/
def neg : F → F
  | .fin q => .fin (-q)
  | .nan => .nan
  | .pinf => .ninf
  | .ninf => .pinf

/-- IEEE addition on the extended rationals. -/
def add : F → F → F
  | .nan, _ => .nan
  | _, .nan => .nan
  | .fin a, .fin b => .fin (a + b)
  | .fin _, .pinf => .pinf
  | .fin _, .ninf => .ninf
  | .pinf, .fin _ => .pinf
  | .ninf, .fin _ => .ninf
  | .pinf, .pinf => .pinf
  | .ninf, .ninf => .ninf
  | .pinf, .ninf => .nan
  | .ninf, .pinf => .nan

/-- IEEE multiplication on the extended rationals (0 times infinity is NaN). -/
def mul : F → F → F
  | .nan, _ => .nan
  | _, .nan => .nan
  | .fin a, .fin b => .fin (a * b)
  | .fin a, .pinf => if 0 < a then .pinf else if a < 0 then .ninf else .nan
  | .fin a, .ninf => if 0 < a then .ninf else if a < 0 then .pinf else .nan
  | .pinf, .fin b => if 0 < b then .pinf else if b < 0 then .ninf else .nan
  | .ninf, .fin b => if 0 < b then .ninf else if b < 0 then .pinf else .nan
  | .pinf, .pinf => .pinf
  | .pinf, .ninf => .ninf
  | .ninf, .pinf => .ninf
  | .ninf, .ninf => .pinf

/-- IEEE subtraction. -/
def sub (a b : F) : F := add a (neg b)

/-- IEEE division on the extended rationals: 0/0 is NaN, finite over zero is
a signed infinity (the unsigned zero of the model behaves as +0.0), finite
over infinity is 0, infinity over infinity is NaN. -/
def div : F → F → F
  | .nan, _ => .nan
  | _, .nan => .nan
  | .fin a, .fin b =>
      if b = 0 then (if a = 0 then .nan else if 0 < a then .pinf else .ninf)
      else .fin (a / b)
  | .fin _, .pinf => .fin 0
  | .fin _, .ninf => .fin 0
  | .pinf, .fin b => if 0 ≤ b then .pinf else .ninf
  | .ninf, .fin b => if 0 ≤ b then .ninf else .pinf
  | .pinf, .pinf => .nan
  | .pinf, .ninf => .nan
  | .ninf, .pinf => .nan
  | .ninf, .ninf => .nan

/-- IEEE strict comparison: any comparison with NaN is false. -/
def blt : F → F → Bool
  | .nan, _ => false
  | _, .nan => false
  | .fin a, .fin b => decide (a < b)
  | .fin _, .pinf => true
  | .fin _, .ninf => false
  | .pinf, .fin _ => false
  | .ninf, .fin _ => true
  | .pinf, .pinf => false
  | .ninf, .ninf => false
  | .ninf, .pinf => true
  | .pinf, .ninf => false

/-- IEEE non-strict comparison: any comparison with NaN is false. -/
def ble : F → F → Bool
  | .nan, _ => false
  | _, .nan => false
  | .fin a, .fin b => decide (a ≤ b)
  | .fin _, .pinf => true
  | .fin _, .ninf => false
  | .pinf, .fin _ => false
  | .ninf, .fin _ => true
  | .pinf, .pinf => true
  | .ninf, .ninf => true
  | .ninf, .pinf => true
  | .pinf, .ninf => false

/-- IEEE equality test, as used by the Rust PartialEq on floats:
NaN is equal to nothing, including itself. -/
def beq : F → F → Bool
  | .fin a, .fin b => decide (a = b)
  | .pinf, .pinf => true
  | .ninf, .ninf => true
  | _, _ => false

/-- IEEE disequality test, the Rust != on floats: NaN != everything. -/
def bne (a b : F) : Bool := !(beq a b)

end F

instance : Add F := ⟨F.add⟩

instance : Sub F := ⟨F.sub⟩

instance : Mul F := ⟨F.mul⟩

instance : Div F := ⟨F.div⟩

instance : Neg F := ⟨F.neg⟩

@[simp] theorem F.add_fin (a b : ℚ) : F.fin a + F.fin b = F.fin (a + b) := rfl

@[simp] theorem F.sub_fin (a b : ℚ) : F.fin a - F.fin b = F.fin (a - b) := by
  show F.add (F.fin a) (F.neg (F.fin b)) = F.fin (a - b)
  simp [F.add, F.neg, sub_eq_add_neg]

@[simp] theorem F.mul_fin (a b : ℚ) : F.fin a * F.fin b = F.fin (a * b) := rfl

@[simp] theorem F.neg_fin (a : ℚ) : -(F.fin a) = F.fin (-a) := rfl

theorem F.div_fin (a b : ℚ) (hb : b ≠ 0) : F.fin a / F.fin b = F.fin (a / b) := by
  show F.div (F.fin a) (F.fin b) = F.fin (a / b)
  simp [F.div, hb]

@[simp] theorem F.blt_fin (a b : ℚ) : F.blt (F.fin a) (F.fin b) = decide (a < b) := rfl

@[simp] theorem F.ble_fin (a b : ℚ) : F.ble (F.fin a) (F.fin b) = decide (a ≤ b) := rfl

@[simp] theorem F.beq_fin (a b : ℚ) : F.beq (F.fin a) (F.fin b) = decide (a = b) := rfl

/-- Modelled from the spec: the repository's utils module is not under src/.
Clamp n to the closed interval from mn to mx, first match wins: below the
minimum gives the minimum, above the maximum gives the maximum, otherwise n
(in particular NaN falls through both comparisons and is returned as-is). -/
def clamp (n mn mx : F) : F :=
  if F.blt n mn then mn else if F.blt mx n then mx else n

/-- Modelled from the spec: the repository's utils module is not under src/.
Percentage of value between min and max (the f32 narrowing of the source is
not modelled). -/
def percentage (value mn mx : F) : F := (value - mn) / (mx - mn)

/-- Modelled from the spec: the repository's utils module is not under src/.
Reconstruct a value from a percentage of the range from min to max. -/
def value_from_perc (perc mn mx : F) : F := mn + (mx - mn) * perc

/-- Modelled from the spec: the repository's utils module is not under src/.
Linearly map value from the input range onto the output range. -/
def map_range (v in_min in_max out_min out_max : F) : F :=
  out_min + (v - in_min) * (out_max - out_min) / (in_max - in_min)

/-- Modelled from the spec: the repository's utils module is not under src/.
Bounds-containment test of a point against a rectangle of the given
dimensions centred at rect_point (points are in centre-origin coordinates). -/
def is_over_rect (rect_point mouse_point : ℚ × ℚ) (rect_dim : ℚ × ℚ) : Bool :=
  decide (|mouse_point.1 - rect_point.1| ≤ rect_dim.1 / 2)
    && decide (|mouse_point.2 - rect_point.2| ≤ rect_dim.2 / 2)

/-- Modelled from the spec: the colour module is not under src/.  A colour is
either a base rgba value or the pure highlighted or clicked variant of
another colour; the variant constructors keep the functions highlighted and
clicked pure and injective without committing to their numeric definition. -/
inductive Color where
  | rgba (r g b a : ℚ)
  | highlightedOf (c : Color)
  | clickedOf (c : Color)
deriving DecidableEq

/-- Modelled from the spec: the highlighted variant of a colour. -/
def Color.highlighted (c : Color) : Color := Color.highlightedOf c

/-- Modelled from the spec: the clicked variant of a colour. -/
def Color.clicked (c : Color) : Color := Color.clickedOf c

/-- Font sizes are u32 in the source. -/
abbrev FontSize := Nat

/-- The state of the left mouse button (mouse module, not under src/). -/
inductive ButtonState where
  | Down
  | Up
deriving DecidableEq

/-- Modelled from the spec: the mouse module is not under src/.  Mouse state
as handed to the widget: a position and the left button state.  Coordinates
are finite rationals, as delivered by the windowing system. -/
structure Mouse where
  xy : ℚ × ℚ
  left : ButtonState
deriving DecidableEq

/-- Modelled from the spec: translate the mouse position so that it is
relative to the given point. -/
def Mouse.relative_to (m : Mouse) (xy : ℚ × ℚ) : Mouse :=
  { m with xy := (m.xy.1 - xy.1, m.xy.2 - xy.2) }

/-- Styling for the Slider (slider.rs, struct Style). -/
structure Style where
  maybe_color : Option Color
  maybe_frame : Option ℚ
  maybe_frame_color : Option Color
  maybe_label_color : Option Color
  maybe_label_font_size : Option FontSize
deriving DecidableEq

/-- Modelled from the spec: the theme module is not under src/.  The global
theme defaults consumed by the slider's style resolution, plus the optional
per-slider style override. -/
structure Theme where
  shape_color : Color
  frame_color : Color
  frame_width : ℚ
  label_color : Color
  font_size_medium : FontSize
  maybe_slider : Option Style

/-- The ways in which the Slider can be interacted with (slider.rs, enum
Interaction). -/
inductive Interaction where
  | Normal
  | Highlighted
  | Clicked
deriving DecidableEq

/-- Represents the state of the Slider widget (slider.rs, struct State). -/
structure State where
  value : F
  min : F
  max : F
  maybe_label : Option String
  interaction : Interaction
deriving DecidableEq

/-- Return the color associated with the state (State::color in slider.rs). -/
def State.color (s : State) (color : Color) : Color :=
  match s.interaction with
  | .Normal => color
  | .Highlighted => color.highlighted
  | .Clicked => color.clicked

/-- Check the current state of the slider (get_new_interaction in
slider.rs): match on the over-flag, the previous interaction and the left
button state, first match wins. -/
def get_new_interaction (is_over : Bool) (prev : Interaction) (mouse : Mouse) :
    Interaction :=
  match is_over, prev, mouse.left with
  | true, .Normal, .Down => .Normal
  | true, _, .Down => .Clicked
  | true, _, .Up => .Highlighted
  | false, .Clicked, .Down => .Clicked
  | _, _, _ => .Normal

/-- The Slider configuration (slider.rs, struct Slider).  The position and
alignment requests are omitted: they only feed the external layout
resolution, which is modelled by the resolved screen position carried in
Ui.  The reaction callback is modelled by a flag; the values it would be
called with are returned explicitly by update. -/
structure Slider where
  value : F
  min : F
  max : F
  dim : ℚ × ℚ
  depth : ℚ
  maybe_react : Bool
  maybe_label : Option String
  style : Style
  enabled : Bool

/-- Construct a new Slider widget (Slider::new in slider.rs). -/
def Slider.new (value mn mx : F) : Slider :=
  { value := value
    min := mn
    max := mx
    dim := (192, 48)
    depth := 0
    maybe_react := false
    maybe_label := none
    style :=
      { maybe_color := none
        maybe_frame := none
        maybe_frame_color := none
        maybe_label_color := none
        maybe_label_font_size := none }
    enabled := true }

/-- Get the Color for an Element (Style::color in slider.rs). -/
def Style.color (s : Style) (theme : Theme) : Color :=
  (s.maybe_color.or (theme.maybe_slider.map (fun style =>
    style.maybe_color.getD theme.shape_color))).getD theme.shape_color

/-- Get the frame for an Element (Style::frame in slider.rs). -/
def Style.frame (s : Style) (theme : Theme) : ℚ :=
  (s.maybe_frame.or (theme.maybe_slider.map (fun style =>
    style.maybe_frame.getD theme.frame_width))).getD theme.frame_width

/-- Get the frame Color for an Element (Style::frame_color in slider.rs). -/
def Style.frame_color (s : Style) (theme : Theme) : Color :=
  (s.maybe_frame_color.or (theme.maybe_slider.map (fun style =>
    style.maybe_frame_color.getD theme.frame_color))).getD theme.frame_color

/-- Get the label Color for an Element (Style::label_color in slider.rs). -/
def Style.label_color (s : Style) (theme : Theme) : Color :=
  (s.maybe_label_color.or (theme.maybe_slider.map (fun style =>
    style.maybe_label_color.getD theme.label_color))).getD theme.label_color

/-- Get the label font size for an Element (Style::label_font_size in
slider.rs). -/
def Style.label_font_size (s : Style) (theme : Theme) : FontSize :=
  (s.maybe_label_font_size.or (theme.maybe_slider.map (fun style =>
    style.maybe_label_font_size.getD theme.font_size_medium))).getD
    theme.font_size_medium

/-- The per-frame environment handed to the widget by the Ui (ui module, not
under src/): the theme, the absolute mouse state for this widget, the
resolved screen position produced by the external layout resolution
(Ui::get_xy), and the text-width measurement used for labels
(label::width). -/
structure Ui where
  theme : Theme
  mouse : Mouse
  xy : ℚ × ℚ
  glyphWidth : FontSize → String → ℚ

/-- The generic widget state wrapper (widget module): the widget state plus
the resolved screen rectangle. -/
structure WidgetState (α : Type) where
  state : α
  dim : ℚ × ℚ
  xy : ℚ × ℚ
  depth : ℚ

/-- The drag-branch guard of Slider::update (slider.rs lines 177 to 179 and
191 to 193): the pointer is over while the interaction transitions from
Highlighted to Clicked, or the interaction was and remains Clicked. -/
def dragMatch (is_over : Bool) (prev_i new_i : Interaction) : Bool :=
  match is_over, prev_i, new_i with
  | true, .Highlighted, .Clicked => true
  | _, .Clicked, .Clicked => true
  | _, _, _ => false

/-- The transition guard of the reaction in Slider::update (slider.rs lines
208 to 211): Highlighted to Clicked or Clicked to Highlighted. -/
def hl_click_transition : Interaction → Interaction → Bool
  | .Highlighted, .Clicked => true
  | .Clicked, .Highlighted => true
  | _, _ => false

/-- The new interaction of Slider::update (slider.rs lines 159 to 166):
run the classifier on the relative mouse, unless the slider is disabled, in
which case the interaction is forced to Normal.  The mouse argument is
already relative to the widget position. -/
def Slider.new_interaction (s : Slider) (prev_i : Interaction) (mouse : Mouse) :
    Interaction :=
  if s.enabled then
    get_new_interaction (is_over_rect (0, 0) mouse.xy s.dim) prev_i mouse
  else
    Interaction.Normal

/-- The new value computation of Slider::update (slider.rs lines 168 to
203), extracted as a named function: choose the axis by whether the width
exceeds the height, take the pixel extent either from the clamped mapped
pointer coordinate (drag branch) or from the clamped percentage of the
current value, and convert the extent back to a value through the
percentage of the interior length.  The mouse argument is already relative
to the widget position. -/
def Slider.new_value (s : Slider) (prev_i new_i : Interaction) (style : Style)
    (theme : Theme) (mouse : Mouse) : F :=
  let is_over := is_over_rect (0, 0) mouse.xy s.dim
  let frame := style.frame theme
  let frame_2 := frame * 2
  let inner_w := s.dim.1 - frame_2
  let inner_h := s.dim.2 - frame_2
  let half_inner_w := inner_w / 2
  let half_inner_h := inner_h / 2
  if s.dim.1 > s.dim.2 then
    let w :=
      if dragMatch is_over prev_i new_i then
        clamp (map_range (F.fin mouse.xy.1) (F.fin (-half_inner_w))
          (F.fin half_inner_w) (F.fin 0) (F.fin inner_w)) (F.fin 0)
          (F.fin inner_w)
      else
        clamp ((percentage s.value s.min s.max) * F.fin inner_w) (F.fin 0)
          (F.fin inner_w)
    value_from_perc (w / F.fin inner_w) s.min s.max
  else
    let h :=
      if dragMatch is_over prev_i new_i then
        clamp (map_range (F.fin mouse.xy.2) (F.fin (-half_inner_h))
          (F.fin half_inner_h) (F.fin 0) (F.fin inner_h)) (F.fin 0)
          (F.fin inner_h)
      else
        clamp ((percentage s.value s.min s.max) * F.fin inner_h) (F.fin 0)
          (F.fin inner_h)
    value_from_perc (h / F.fin inner_h) s.min s.max

/-- The output of one update call: the widget state wrapper returned by
Slider::update, plus the list of values the reaction callback was invoked
with during the call (the side effect of slider.rs lines 205 to 214 made
explicit). -/
structure UpdateOutput where
  result : WidgetState (Option State)
  reactCalls : List F

/-- Update the state of the Slider (Slider::update in slider.rs):
compute the relative mouse and the over-flag, classify the new interaction
(forced to Normal when disabled), compute the new value, fire the reaction
when the value differs from the configured value or the interaction
transitioned between Highlighted and Clicked, and replace the persisted
state exactly when the interaction, value, min, max or label changed. -/
def Slider.update (s : Slider) (prev_state : WidgetState State) (style : Style)
    (u : Ui) : UpdateOutput :=
  let state := prev_state.state
  let dim := s.dim
  let xy := u.xy
  let mouse := u.mouse.relative_to xy
  let new_interaction := s.new_interaction state.interaction mouse
  let new_value := s.new_value state.interaction new_interaction style u.theme mouse
  let reactCalls :=
    if s.maybe_react then
      if F.bne s.value new_value
          || hl_click_transition state.interaction new_interaction then
        [new_value]
      else []
    else []
  let state_has_changed :=
    !(decide (state.interaction = new_interaction))
      || F.bne state.value s.value
      || F.bne state.min s.min || F.bne state.max s.max
      || !(decide (state.maybe_label = s.maybe_label))
  let maybe_new_state :=
    if state_has_changed then
      some { interaction := new_interaction
             value := s.value
             min := s.min
             max := s.max
             maybe_label := s.maybe_label }
    else none
  { result := { state := maybe_new_state, dim := dim, xy := xy, depth := s.depth }
    reactCalls := reactCalls }

/-- Modelled from the spec: the position module is not under src/.  The
offset that aligns a form of the given inner length with the left (or
bottom) edge of an outer length, in centre-origin coordinates. -/
def align_start_of (outer inner : ℚ) : ℚ := (inner - outer) / 2

/-- Truncation of a rational toward zero, the Rust `as i32` cast (saturation
is not modelled: collage dimensions are ordinary widget sizes). -/
def ratTrunc (q : ℚ) : ℤ := if 0 ≤ q then ⌊q⌋ else ⌈q⌉

/-- Modelled from the spec: the elmesque forms are external.  A form is a
filled rectangle or a coloured text, each carrying its accumulated shift. -/
inductive Form where
  | rectF (w h : F) (color : Color) (dx dy : F)
  | textF (content : String) (color : Color) (height : ℚ) (dx dy : F)
deriving DecidableEq

/-- Modelled from the spec: shifting a form accumulates into its offset. -/
def Form.shift : Form → F → F → Form
  | .rectF w h c dx dy, x, y => .rectF w h c (dx + x) (dy + y)
  | .textF s c ht dx dy, x, y => .textF s c ht (dx + x) (dy + y)

/-- Modelled from the spec: a collage element, the abstract visual
description handed to the renderer. -/
structure Element where
  w : ℤ
  h : ℤ
  forms : List Form
deriving DecidableEq

/-- Construct an Element from the given Slider State (Slider::draw in
slider.rs): a backdrop rectangle in the frame colour, a proportional fill
rectangle recomputed from the persisted value, and an optional label,
shifted into screen position.  The draw function reads only the theme and
the glyph widths from the Ui, never the mouse. -/
def Slider.draw (new_state : WidgetState State) (style : Style) (u : Ui) :
    Element :=
  let state := new_state.state
  let dim := new_state.dim
  let xy := new_state.xy
  let frame := style.frame u.theme
  let inner_w := dim.1 - frame * 2
  let inner_h := dim.2 - frame * 2
  let frame_color := state.color (style.frame_color u.theme)
  let color := state.color (style.color u.theme)
  let new_value := state.value
  let pad :=
    if dim.1 > dim.2 then
      let value_percentage := percentage new_value state.min state.max
      let w := clamp (value_percentage * F.fin inner_w) (F.fin 0) (F.fin inner_w)
      ((-((F.fin inner_w - w) / F.fin 2), F.fin 0), (w, F.fin inner_h))
    else
      let value_percentage := percentage new_value state.min state.max
      let h := clamp (value_percentage * F.fin inner_h) (F.fin 0) (F.fin inner_h)
      ((F.fin 0, -((F.fin inner_h - h) / F.fin 2)), (F.fin inner_w, h))
  let pad_rel_xy := pad.1
  let pad_dim := pad.2
  let frame_form := Form.rectF (F.fin dim.1) (F.fin dim.2) frame_color
    (F.fin 0) (F.fin 0)
  let pad_form := (Form.rectF pad_dim.1 pad_dim.2 color (F.fin 0)
    (F.fin 0)).shift pad_rel_xy.1 pad_rel_xy.2
  let maybe_label_form := state.maybe_label.map (fun label_text =>
    let label_color := style.label_color u.theme
    let size := style.label_font_size u.theme
    let label_w := u.glyphWidth size label_text
    let l_pos : ℚ × ℚ :=
      if dim.1 > dim.2 then
        (align_start_of dim.1 label_w + 10, 0)
      else
        (0, align_start_of dim.2 (size : ℚ) + 10)
    ((Form.textF label_text label_color (size : ℚ) (F.fin 0) (F.fin 0)).shift
      (F.fin (⌊l_pos.1⌋ : ℚ)) (F.fin (⌊l_pos.2⌋ : ℚ))).shift
      (F.fin (⌊xy.1⌋ : ℚ)) (F.fin (⌊xy.2⌋ : ℚ)))
  let forms :=
    ([frame_form, pad_form].map (fun form =>
      form.shift (F.fin xy.1) (F.fin xy.2))) ++ maybe_label_form.toList
  { w := ratTrunc dim.1, h := ratTrunc dim.2, forms := forms }

/-- Refinement reference for the classifier, following the words of the
specification only (section 4.1 truth table, first match wins), to be
compared with the classifier translated from the source. -/
def classify_spec (is_over : Bool) (prev : Interaction) (button : ButtonState) :
    Interaction :=
  match is_over, prev, button with
  | true, .Normal, .Down => .Normal
  | true, _, .Down => .Clicked
  | true, _, .Up => .Highlighted
  | false, .Clicked, .Down => .Clicked
  | _, _, _ => .Normal

/-! Helper lemmas about the numeric model. -/

theorem dragMatch_normal (o : Bool) (p : Interaction) :
    dragMatch o p .Normal = false := by
  cases o <;> cases p <;> rfl

theorem dragMatch_highlighted (o : Bool) (p : Interaction) :
    dragMatch o p .Highlighted = false := by
  cases o <;> cases p <;> rfl

theorem clamp_fin (x lo hi : ℚ) :
    clamp (F.fin x) (F.fin lo) (F.fin hi)
      = F.fin (if x < lo then lo else if hi < x then hi else x) := by
  simp only [clamp, F.blt_fin, decide_eq_true_eq]
  split_ifs <;> rfl

theorem clamp_ite_bounds (x lo hi : ℚ) (h : lo ≤ hi) :
    lo ≤ (if x < lo then lo else if hi < x then hi else x)
      ∧ (if x < lo then lo else if hi < x then hi else x) ≤ hi := by
  split_ifs <;> constructor <;> linarith

theorem value_from_perc_fin (p mn mx : ℚ) :
    value_from_perc (F.fin p) (F.fin mn) (F.fin mx)
      = F.fin (mn + (mx - mn) * p) := by
  simp [value_from_perc]

theorem percentage_fin (v mn mx : ℚ) (h : mx - mn ≠ 0) :
    percentage (F.fin v) (F.fin mn) (F.fin mx) = F.fin ((v - mn) / (mx - mn)) := by
  rw [percentage]
  simp only [F.sub_fin]
  rw [F.div_fin _ _ h]

theorem map_range_fin (v a b c d : ℚ) (h : b - a ≠ 0) :
    map_range (F.fin v) (F.fin a) (F.fin b) (F.fin c) (F.fin d)
      = F.fin (c + (v - a) * (d - c) / (b - a)) := by
  rw [map_range]
  simp only [F.sub_fin, F.mul_fin]
  rw [F.div_fin _ _ h]
  simp only [F.add_fin]

theorem bounded_reconstruction (t inner mn mx : ℚ) (ht0 : 0 ≤ t) (hti : t ≤ inner)
    (hinner : 0 < inner) (hle : mn ≤ mx) :
    mn ≤ mn + (mx - mn) * (t / inner) ∧ mn + (mx - mn) * (t / inner) ≤ mx := by
  have hp0 : 0 ≤ t / inner := div_nonneg ht0 (le_of_lt hinner)
  have hp1 : t / inner ≤ 1 := (div_le_one hinner).2 hti
  constructor <;> nlinarith

theorem fin_extent_value_bounds (r inner mn mx : ℚ) (hinner : 0 < inner)
    (hle : mn ≤ mx) :
    ∃ q : ℚ,
      value_from_perc (clamp (F.fin r) (F.fin 0) (F.fin inner) / F.fin inner)
          (F.fin mn) (F.fin mx) = F.fin q
        ∧ mn ≤ q ∧ q ≤ mx := by
  rw [clamp_fin, F.div_fin _ _ (ne_of_gt hinner), value_from_perc_fin]
  obtain ⟨ht0, hti⟩ := clamp_ite_bounds r 0 inner (le_of_lt hinner)
  exact ⟨_, rfl,
    bounded_reconstruction _ inner mn mx ht0 hti hinner hle⟩

/-! Shared concrete fixtures for witness and counterexample statements. -/

/-- A concrete theme with no per-slider override, used by the witnesses. -/
def testTheme : Theme :=
  { shape_color := .rgba 1 0 0 1
    frame_color := .rgba 0 1 0 1
    frame_width := 1
    label_color := .rgba 0 0 1 1
    font_size_medium := 24
    maybe_slider := none }

/-- A concrete style with no instance overrides, used by the witnesses. -/
def testStyle : Style :=
  { maybe_color := none
    maybe_frame := none
    maybe_frame_color := none
    maybe_label_color := none
    maybe_label_font_size := none }

/-- A concrete style whose frame override makes the interior length zero on
a 2 by 1 slider. -/
def frameOneStyle : Style := { testStyle with maybe_frame := some 1 }

/-- A concrete disabled slider over the range 0 to 1 at value one quarter. -/
def disabledSlider : Slider :=
  { Slider.new (F.fin (1/4)) (F.fin 0) (F.fin 1) with enabled := false }

/-- A concrete previous widget state whose interaction is Clicked. -/
def prevClickedQuarter : WidgetState State :=
  { state := { value := F.fin (1/4), min := F.fin 0, max := F.fin 1
               maybe_label := none, interaction := .Clicked }
    dim := (192, 48), xy := (0, 0), depth := 0 }

/-- A concrete environment with the pointer pressed at the widget centre. -/
def overDownUi : Ui :=
  { theme := testTheme, mouse := { xy := (0, 0), left := .Down }
    xy := (0, 0), glyphWidth := fun _ _ => 10 }

/-- A concrete environment with the pointer far away and released. -/
def farUpUi : Ui :=
  { theme := testTheme, mouse := { xy := (777, -5), left := .Up }
    xy := (0, 0), glyphWidth := fun _ _ => 10 }

/-! Structural consequences of Slider.update, shared by several claims. -/

theorem Slider.update_result_state (s : Slider) (prev : WidgetState State)
    (st : Style) (u : Ui) :
    (s.update prev st u).result.state
      = if (!(decide (prev.state.interaction
            = s.new_interaction prev.state.interaction (u.mouse.relative_to u.xy)))
          || F.bne prev.state.value s.value
          || F.bne prev.state.min s.min || F.bne prev.state.max s.max
          || !(decide (prev.state.maybe_label = s.maybe_label))) then
          some { interaction :=
                   s.new_interaction prev.state.interaction (u.mouse.relative_to u.xy)
                 value := s.value
                 min := s.min
                 max := s.max
                 maybe_label := s.maybe_label }
        else none := rfl

theorem Slider.update_reactCalls (s : Slider) (prev : WidgetState State)
    (st : Style) (u : Ui) :
    (s.update prev st u).reactCalls
      = if s.maybe_react then
          if F.bne s.value
              (s.new_value prev.state.interaction
                (s.new_interaction prev.state.interaction (u.mouse.relative_to u.xy))
                st u.theme (u.mouse.relative_to u.xy))
            || hl_click_transition prev.state.interaction
              (s.new_interaction prev.state.interaction (u.mouse.relative_to u.xy)) then
            [s.new_value prev.state.interaction
              (s.new_interaction prev.state.interaction (u.mouse.relative_to u.xy))
              st u.theme (u.mouse.relative_to u.xy)]
          else []
        else [] := rfl

theorem Slider.update_eq (s : Slider) (prev : WidgetState State)
    (st : Style) (u : Ui) :
    s.update prev st u
      = { result :=
            { state :=
                if (!(decide (prev.state.interaction
                      = s.new_interaction prev.state.interaction
                        (u.mouse.relative_to u.xy)))
                    || F.bne prev.state.value s.value
                    || F.bne prev.state.min s.min || F.bne prev.state.max s.max
                    || !(decide (prev.state.maybe_label = s.maybe_label))) then
                    some { interaction :=
                             s.new_interaction prev.state.interaction
                               (u.mouse.relative_to u.xy)
                           value := s.value
                           min := s.min
                           max := s.max
                           maybe_label := s.maybe_label }
                  else none
              dim := s.dim
              xy := u.xy
              depth := s.depth }
          reactCalls :=
            if s.maybe_react then
              if F.bne s.value
                  (s.new_value prev.state.interaction
                    (s.new_interaction prev.state.interaction
                      (u.mouse.relative_to u.xy))
                    st u.theme (u.mouse.relative_to u.xy))
                || hl_click_transition prev.state.interaction
                  (s.new_interaction prev.state.interaction
                    (u.mouse.relative_to u.xy)) then
                [s.new_value prev.state.interaction
                  (s.new_interaction prev.state.interaction
                    (u.mouse.relative_to u.xy))
                  st u.theme (u.mouse.relative_to u.xy)]
              else []
            else [] } := rfl

theorem changed_eq_false_iff (i ni : Interaction) (v v' mn mn' mx mx' : F)
    (l l' : Option String) :
    ((!(decide (i = ni))) || F.bne v v' || F.bne mn mn' || F.bne mx mx'
        || !(decide (l = l'))) = false
      ↔ (i = ni ∧ F.bne v v' = false ∧ F.bne mn mn' = false
          ∧ F.bne mx mx' = false ∧ l = l') := by
  simp [Bool.or_eq_false_iff, and_assoc]

theorem new_value_no_drag (s : Slider) (p_i n_i : Interaction) (st : Style)
    (th : Theme) (m : Mouse)
    (h : dragMatch (is_over_rect (0, 0) m.xy s.dim) p_i n_i = false) :
    s.new_value p_i n_i st th m
      = (if s.dim.1 > s.dim.2 then
          value_from_perc
            (clamp (percentage s.value s.min s.max * F.fin (s.dim.1 - st.frame th * 2))
                (F.fin 0) (F.fin (s.dim.1 - st.frame th * 2))
              / F.fin (s.dim.1 - st.frame th * 2)) s.min s.max
        else
          value_from_perc
            (clamp (percentage s.value s.min s.max * F.fin (s.dim.2 - st.frame th * 2))
                (F.fin 0) (F.fin (s.dim.2 - st.frame th * 2))
              / F.fin (s.dim.2 - st.frame th * 2)) s.min s.max) := by
  simp only [Slider.new_value, h, Bool.false_eq_true, if_false]

/-- C1: the interaction classifier is a pure function that agrees with the
section 4.1 truth table on every combination of over-flag, previous
interaction and left-button state: over and Normal with the button down
stays Normal, over and Highlighted or Clicked with the button down becomes
Clicked, over with the button up becomes Highlighted, not over but Clicked
with the button down remains Clicked (drag beyond bounds), and every other
combination becomes Normal. -/
theorem claim_C1_classifier_truth_table :
    ∀ (is_over : Bool) (prev : Interaction) (xy : ℚ × ℚ) (b : ButtonState),
      get_new_interaction is_over prev { xy := xy, left := b }
        = classify_spec is_over prev b := by
  intro is_over prev xy b
  cases is_over <;> cases prev <;> cases b <;> rfl

/-- C7: each of the five style attributes resolves independently through
the three-level chain: the instance override when present, otherwise the
theme's per-slider override when the theme carries a slider style with that
attribute set, otherwise the theme's global default (shape colour, frame
width, frame colour, label colour, medium font size respectively). -/
theorem claim_C7_style_resolution_chain :
    ∀ (st ss : Style) (th : Theme) (c fc lc : Color) (fr : ℚ) (fs : FontSize),
      ({ st with maybe_color := some c }).color th = c
      ∧ ({ st with maybe_color := none }).color
          { th with maybe_slider := some { ss with maybe_color := some c } } = c
      ∧ ({ st with maybe_color := none }).color
          { th with maybe_slider := some { ss with maybe_color := none } }
          = th.shape_color
      ∧ ({ st with maybe_color := none }).color
          { th with maybe_slider := none } = th.shape_color
      ∧ ({ st with maybe_frame := some fr }).frame th = fr
      ∧ ({ st with maybe_frame := none }).frame
          { th with maybe_slider := some { ss with maybe_frame := some fr } } = fr
      ∧ ({ st with maybe_frame := none }).frame
          { th with maybe_slider := some { ss with maybe_frame := none } }
          = th.frame_width
      ∧ ({ st with maybe_frame := none }).frame
          { th with maybe_slider := none } = th.frame_width
      ∧ ({ st with maybe_frame_color := some fc }).frame_color th = fc
      ∧ ({ st with maybe_frame_color := none }).frame_color
          { th with maybe_slider := some { ss with maybe_frame_color := some fc } }
          = fc
      ∧ ({ st with maybe_frame_color := none }).frame_color
          { th with maybe_slider := some { ss with maybe_frame_color := none } }
          = th.frame_color
      ∧ ({ st with maybe_frame_color := none }).frame_color
          { th with maybe_slider := none } = th.frame_color
      ∧ ({ st with maybe_label_color := some lc }).label_color th = lc
      ∧ ({ st with maybe_label_color := none }).label_color
          { th with maybe_slider := some { ss with maybe_label_color := some lc } }
          = lc
      ∧ ({ st with maybe_label_color := none }).label_color
          { th with maybe_slider := some { ss with maybe_label_color := none } }
          = th.label_color
      ∧ ({ st with maybe_label_color := none }).label_color
          { th with maybe_slider := none } = th.label_color
      ∧ ({ st with maybe_label_font_size := some fs }).label_font_size th = fs
      ∧ ({ st with maybe_label_font_size := none }).label_font_size
          { th with maybe_slider := some { ss with maybe_label_font_size := some fs } }
          = fs
      ∧ ({ st with maybe_label_font_size := none }).label_font_size
          { th with maybe_slider := some { ss with maybe_label_font_size := none } }
          = th.font_size_medium
      ∧ ({ st with maybe_label_font_size := none }).label_font_size
          { th with maybe_slider := none } = th.font_size_medium := by
  intro st ss th c fc lc fr fs
  refine ⟨rfl, rfl, rfl, rfl, rfl, rfl, rfl, rfl, rfl, rfl,
    rfl, rfl, rfl, rfl, rfl, rfl, rfl, rfl, rfl, rfl⟩

/-- C9: draw is a pure function of the persisted state, the style and the
theme and glyph metrics of the Ui only; two draw calls whose environments
differ solely in live pointer state (or in the layout position the updater
would read) produce identical visual descriptions, because draw never reads
the mouse. -/
theorem claim_C9_draw_ignores_pointer
    (ns : WidgetState State) (st : Style) (u1 u2 : Ui)
    (hth : u1.theme = u2.theme) (hgw : u1.glyphWidth = u2.glyphWidth) :
    Slider.draw ns st u1 = Slider.draw ns st u2 := by
  obtain ⟨t1, m1, p1, g1⟩ := u1
  obtain ⟨t2, m2, p2, g2⟩ := u2
  cases hth
  cases hgw
  rfl

/-- C6: update returns no replacement persisted state exactly when the new
interaction, the configured value, min, max and label text are all
unchanged from the previous frame's persisted state (value comparisons
follow the code's float disequality, under which NaN differs from
everything); when any differs the replacement is the wholesale new record;
and in either case the returned screen rectangle carries the computed
position, dimensions and depth. -/
theorem claim_C6_state_replacement_iff_changed (s : Slider)
    (prev : WidgetState State) (st : Style) (u : Ui) :
    ((s.update prev st u).result.state = none
      ↔ (prev.state.interaction
            = s.new_interaction prev.state.interaction (u.mouse.relative_to u.xy)
          ∧ F.bne prev.state.value s.value = false
          ∧ F.bne prev.state.min s.min = false
          ∧ F.bne prev.state.max s.max = false
          ∧ prev.state.maybe_label = s.maybe_label))
    ∧ ((s.update prev st u).result.state = none
        ∨ (s.update prev st u).result.state
            = some { interaction :=
                       s.new_interaction prev.state.interaction
                         (u.mouse.relative_to u.xy)
                     value := s.value
                     min := s.min
                     max := s.max
                     maybe_label := s.maybe_label })
    ∧ (s.update prev st u).result.dim = s.dim
    ∧ (s.update prev st u).result.xy = u.xy
    ∧ (s.update prev st u).result.depth = s.depth := by
  refine ⟨?_, ?_, rfl, rfl, rfl⟩
  · rw [Slider.update_result_state]
    rcases hb : ((!(decide (prev.state.interaction
          = s.new_interaction prev.state.interaction (u.mouse.relative_to u.xy))))
        || F.bne prev.state.value s.value
        || F.bne prev.state.min s.min || F.bne prev.state.max s.max
        || !(decide (prev.state.maybe_label = s.maybe_label))) with _ | _
    · rw [if_neg (by simp)]
      simpa using (changed_eq_false_iff _ _ _ _ _ _ _ _ _ _).1 hb
    · rw [if_pos rfl]
      simp only [reduceCtorEq, false_iff]
      intro hcontra
      have hfalse := (changed_eq_false_iff prev.state.interaction
        (s.new_interaction prev.state.interaction (u.mouse.relative_to u.xy))
        prev.state.value s.value prev.state.min s.min prev.state.max s.max
        prev.state.maybe_label s.maybe_label).2 hcontra
      rw [hb] at hfalse
      exact Bool.true_eq_false ▸ hfalse
  · rw [Slider.update_result_state]
    split_ifs
    · exact Or.inr rfl
    · exact Or.inl rfl

/-- C10: any replacement persisted state produced by update stores the
configuration's input value, min, max and label, never the freshly computed
drag-derived value; the computed value reaches the caller only through the
reaction-call list. -/
theorem claim_C10_persisted_state_stores_config (s : Slider)
    (prev : WidgetState State) (st : Style) (u : Ui) :
    ((s.update prev st u).result.state = none
      ∨ (s.update prev st u).result.state
          = some { interaction :=
                     s.new_interaction prev.state.interaction
                       (u.mouse.relative_to u.xy)
                   value := s.value
                   min := s.min
                   max := s.max
                   maybe_label := s.maybe_label })
    ∧ ((s.update prev st u).reactCalls = []
      ∨ (s.update prev st u).reactCalls
          = [s.new_value prev.state.interaction
              (s.new_interaction prev.state.interaction (u.mouse.relative_to u.xy))
              st u.theme (u.mouse.relative_to u.xy)]) := by
  constructor
  · rw [Slider.update_result_state]
    split_ifs
    · exact Or.inr rfl
    · exact Or.inl rfl
  · rw [Slider.update_reactCalls]
    split_ifs
    · exact Or.inr rfl
    · exact Or.inl rfl
    · exact Or.inl rfl

/-- C2: with a reaction callback supplied, update invokes the callback
exactly once when the computed new value differs from the configured value
(float disequality) or the interaction transitions between Highlighted and
Clicked in either direction, and otherwise not at all; it is never invoked
more than once per update call. -/
theorem claim_C2_reaction_fires_exactly_once (s : Slider)
    (prev : WidgetState State) (st : Style) (u : Ui)
    (hr : s.maybe_react = true) :
    (s.update prev st u).reactCalls.length ≤ 1
    ∧ ((s.update prev st u).reactCalls.length = 1
        ↔ (F.bne s.value
              (s.new_value prev.state.interaction
                (s.new_interaction prev.state.interaction (u.mouse.relative_to u.xy))
                st u.theme (u.mouse.relative_to u.xy))
            || hl_click_transition prev.state.interaction
              (s.new_interaction prev.state.interaction (u.mouse.relative_to u.xy)))
            = true) := by
  rw [Slider.update_reactCalls, hr, if_pos rfl]
  rcases hc : (F.bne s.value
      (s.new_value prev.state.interaction
        (s.new_interaction prev.state.interaction (u.mouse.relative_to u.xy))
        st u.theme (u.mouse.relative_to u.xy))
    || hl_click_transition prev.state.interaction
      (s.new_interaction prev.state.interaction (u.mouse.relative_to u.xy))) with _ | _
  · rw [if_neg (by simp)]
    simp
  · rw [if_pos rfl]
    simp

/-- Witness for C2 on the release scenario: previous interaction Clicked,
button released while over the slider, value numerically unchanged; the
callback fires exactly once. -/
theorem claim_C2_reaction_fires_exactly_once_witness :
    (({ Slider.new (F.fin 0) (F.fin 0) (F.fin 1) with
        maybe_react := true }).update
          { state := { value := F.fin 0, min := F.fin 0, max := F.fin 1
                       maybe_label := none, interaction := .Clicked }
            dim := (192, 48), xy := (0, 0), depth := 0 }
          testStyle
          { theme := testTheme, mouse := { xy := (0, 0), left := .Up }
            xy := (0, 0), glyphWidth := fun _ _ => 10 }).reactCalls.length ≤ 1
    ∧ ((({ Slider.new (F.fin 0) (F.fin 0) (F.fin 1) with
        maybe_react := true }).update
          { state := { value := F.fin 0, min := F.fin 0, max := F.fin 1
                       maybe_label := none, interaction := .Clicked }
            dim := (192, 48), xy := (0, 0), depth := 0 }
          testStyle
          { theme := testTheme, mouse := { xy := (0, 0), left := .Up }
            xy := (0, 0), glyphWidth := fun _ _ => 10 }).reactCalls.length = 1
        ↔ (F.bne (F.fin 0)
              (({ Slider.new (F.fin 0) (F.fin 0) (F.fin 1) with
                  maybe_react := true }).new_value .Clicked
                (({ Slider.new (F.fin 0) (F.fin 0) (F.fin 1) with
                    maybe_react := true }).new_interaction .Clicked
                  ({ xy := (0, 0), left := .Up : Mouse }.relative_to (0, 0)))
                testStyle testTheme
                ({ xy := (0, 0), left := .Up : Mouse }.relative_to (0, 0)))
            || hl_click_transition .Clicked
              (({ Slider.new (F.fin 0) (F.fin 0) (F.fin 1) with
                  maybe_react := true }).new_interaction .Clicked
                ({ xy := (0, 0), left := .Up : Mouse }.relative_to (0, 0))))
            = true) :=
  claim_C2_reaction_fires_exactly_once _ _ _ _ rfl

/-- C3: when the enabled flag is false, update forces the new interaction
to Normal regardless of pointer position, previous interaction and button
state; the computed value is then derived solely from the configured
value's percentage of the range (the drag branch is unreachable, and the
right-hand side of the value equation mentions no mouse input at all); and
the whole update result is independent of the pointer state. -/
theorem claim_C3_disabled_ignores_pointer (s : Slider) (p_i : Interaction)
    (prev : WidgetState State) (st : Style) (u1 u2 : Ui) (m : Mouse)
    (he : s.enabled = false) (hth : u1.theme = u2.theme) (hxy : u1.xy = u2.xy) :
    s.new_interaction p_i m = Interaction.Normal
    ∧ s.new_value p_i (s.new_interaction p_i m) st u1.theme m
        = (if s.dim.1 > s.dim.2 then
            value_from_perc
              (clamp (percentage s.value s.min s.max
                    * F.fin (s.dim.1 - st.frame u1.theme * 2))
                  (F.fin 0) (F.fin (s.dim.1 - st.frame u1.theme * 2))
                / F.fin (s.dim.1 - st.frame u1.theme * 2)) s.min s.max
          else
            value_from_perc
              (clamp (percentage s.value s.min s.max
                    * F.fin (s.dim.2 - st.frame u1.theme * 2))
                  (F.fin 0) (F.fin (s.dim.2 - st.frame u1.theme * 2))
                / F.fin (s.dim.2 - st.frame u1.theme * 2)) s.min s.max)
    ∧ s.update prev st u1 = s.update prev st u2 := by
  have hni : ∀ m' : Mouse, s.new_interaction p_i m' = Interaction.Normal := by
    intro m'
    simp [Slider.new_interaction, he]
  refine ⟨hni m, ?_, ?_⟩
  · rw [hni m, new_value_no_drag _ _ _ _ _ _ (dragMatch_normal _ _)]
  · have hni1 : s.new_interaction prev.state.interaction
        (u1.mouse.relative_to u1.xy) = Interaction.Normal := by
      simp [Slider.new_interaction, he]
    have hni2 : s.new_interaction prev.state.interaction
        (u2.mouse.relative_to u2.xy) = Interaction.Normal := by
      simp [Slider.new_interaction, he]
    rw [Slider.update_eq, Slider.update_eq, hni1, hni2,
      new_value_no_drag _ _ _ _ _ _ (dragMatch_normal _ _),
      new_value_no_drag _ _ _ _ _ _ (dragMatch_normal _ _), hth, hxy]

/-- Witness for C3: a disabled slider with the pointer pressed directly
over it still reports Normal, and produces the same update output as with
the pointer far away and released. -/
theorem claim_C3_disabled_ignores_pointer_witness :
    disabledSlider.new_interaction Interaction.Clicked
        { xy := (0, 0), left := .Down } = Interaction.Normal
    ∧ disabledSlider.update prevClickedQuarter testStyle overDownUi
        = disabledSlider.update prevClickedQuarter testStyle farUpUi :=
  ⟨(claim_C3_disabled_ignores_pointer disabledSlider .Clicked prevClickedQuarter
      testStyle overDownUi farUpUi { xy := (0, 0), left := .Down }
      rfl rfl rfl).1,
   (claim_C3_disabled_ignores_pointer disabledSlider .Clicked prevClickedQuarter
      testStyle overDownUi farUpUi { xy := (0, 0), left := .Down }
      rfl rfl rfl).2.2⟩

/-- Round trip of a value through percentage, extent clamping and value
reconstruction is exact when the range is non-degenerate, the value lies in
the range and the interior length is positive. -/
theorem round_trip_core (v mn mx inner : ℚ) (hlt : mn < mx) (h0 : mn ≤ v)
    (h1 : v ≤ mx) (hinner : 0 < inner) :
    value_from_perc
        (clamp (percentage (F.fin v) (F.fin mn) (F.fin mx) * F.fin inner)
            (F.fin 0) (F.fin inner)
          / F.fin inner) (F.fin mn) (F.fin mx) = F.fin v := by
  have hne : mx - mn ≠ 0 := ne_of_gt (sub_pos.2 hlt)
  have hinner' : inner ≠ 0 := ne_of_gt hinner
  rw [percentage_fin _ _ _ hne, F.mul_fin, clamp_fin]
  have hp0 : 0 ≤ (v - mn) / (mx - mn) :=
    div_nonneg (by linarith) (by linarith)
  have hp1 : (v - mn) / (mx - mn) ≤ 1 :=
    (div_le_one (by linarith)).2 (by linarith)
  have ht0 : 0 ≤ (v - mn) / (mx - mn) * inner :=
    mul_nonneg hp0 (le_of_lt hinner)
  have ht1 : (v - mn) / (mx - mn) * inner ≤ inner := by nlinarith
  rw [if_neg (not_lt.2 ht0), if_neg (not_lt.2 ht1),
    F.div_fin _ _ hinner', value_from_perc_fin]
  congr 1
  field_simp
  ring

/-- C4 (amended): for every update call with finite value, min and max,
min strictly below max, and a positive interior length along the driving
axis, the freshly computed value lies within the closed range from min to
max; the clamping arises from clamping the pixel extent to the interval
from 0 to the interior length and converting back through the percentage,
never from a direct clamp of the value itself. -/
theorem claim_C4_value_within_range (s : Slider) (p_i n_i : Interaction)
    (st : Style) (th : Theme) (m : Mouse) (v mn mx : ℚ)
    (hv : s.value = F.fin v) (hmn : s.min = F.fin mn) (hmx : s.max = F.fin mx)
    (hlt : mn < mx)
    (hinner : 0 < (if s.dim.1 > s.dim.2 then s.dim.1 else s.dim.2)
        - st.frame th * 2) :
    ∃ q : ℚ, s.new_value p_i n_i st th m = F.fin q ∧ mn ≤ q ∧ q ≤ mx := by
  by_cases hd : s.dim.1 > s.dim.2
  · rw [if_pos hd] at hinner
    simp only [Slider.new_value]
    rw [if_pos hd, hv, hmn, hmx]
    rcases hdr : dragMatch (is_over_rect (0, 0) m.xy s.dim) p_i n_i with _ | _
    · rw [if_neg (by simp)]
      rw [percentage_fin _ _ _ (ne_of_gt (sub_pos.2 hlt)), F.mul_fin]
      exact fin_extent_value_bounds _ _ _ _ hinner (le_of_lt hlt)
    · rw [if_pos rfl]
      have hden : (s.dim.1 - st.frame th * 2) / 2
          - -((s.dim.1 - st.frame th * 2) / 2) ≠ 0 := by
        have hsum : (s.dim.1 - st.frame th * 2) / 2
            - -((s.dim.1 - st.frame th * 2) / 2)
            = s.dim.1 - st.frame th * 2 := by ring
        rw [hsum]
        exact ne_of_gt hinner
      rw [map_range_fin _ _ _ _ _ hden]
      exact fin_extent_value_bounds _ _ _ _ hinner (le_of_lt hlt)
  · rw [if_neg hd] at hinner
    simp only [Slider.new_value]
    rw [if_neg hd, hv, hmn, hmx]
    rcases hdr : dragMatch (is_over_rect (0, 0) m.xy s.dim) p_i n_i with _ | _
    · rw [if_neg (by simp)]
      rw [percentage_fin _ _ _ (ne_of_gt (sub_pos.2 hlt)), F.mul_fin]
      exact fin_extent_value_bounds _ _ _ _ hinner (le_of_lt hlt)
    · rw [if_pos rfl]
      have hden : (s.dim.2 - st.frame th * 2) / 2
          - -((s.dim.2 - st.frame th * 2) / 2) ≠ 0 := by
        have hsum : (s.dim.2 - st.frame th * 2) / 2
            - -((s.dim.2 - st.frame th * 2) / 2)
            = s.dim.2 - st.frame th * 2 := by ring
        rw [hsum]
        exact ne_of_gt hinner
      rw [map_range_fin _ _ _ _ _ hden]
      exact fin_extent_value_bounds _ _ _ _ hinner (le_of_lt hlt)

/-- Counterexample for C4 as stated: with min = max = value = 0 (so min is
at most max and the interior length 190 is positive, satisfying the claim's
hypotheses) and no drag active, the percentage computation divides zero by
zero; the computed value is NaN, which does not lie within the range under
either IEEE comparison. -/
theorem claim_C4_counterexample :
    F.ble (F.fin 0) (F.fin 0) = true
    ∧ (0 : ℚ) < 192 - testStyle.frame testTheme * 2
    ∧ (Slider.new (F.fin 0) (F.fin 0) (F.fin 0)).new_value .Normal .Normal
        testStyle testTheme { xy := (1000, 1000), left := .Up } = F.nan
    ∧ F.ble (F.fin 0)
        ((Slider.new (F.fin 0) (F.fin 0) (F.fin 0)).new_value .Normal .Normal
          testStyle testTheme { xy := (1000, 1000), left := .Up }) = false
    ∧ F.ble
        ((Slider.new (F.fin 0) (F.fin 0) (F.fin 0)).new_value .Normal .Normal
          testStyle testTheme { xy := (1000, 1000), left := .Up })
        (F.fin 0) = false := by
  with_unfolding_all decide

/-- Witness for C4 at the default geometry with value one quarter of the
range from 0 to 1. -/
theorem claim_C4_value_within_range_witness :
    ∃ q : ℚ,
      (Slider.new (F.fin (1/4)) (F.fin 0) (F.fin 1)).new_value .Normal
          .Highlighted testStyle testTheme { xy := (0, 0), left := .Up }
        = F.fin q ∧ 0 ≤ q ∧ q ≤ 1 :=
  claim_C4_value_within_range (Slider.new (F.fin (1/4)) (F.fin 0) (F.fin 1))
    .Normal .Highlighted testStyle testTheme { xy := (0, 0), left := .Up }
    (1/4) 0 1 rfl rfl rfl (by norm_num)
    (by norm_num [Slider.new, testStyle, testTheme, Style.frame])

/-- C8 (amended): for every finite value between min and max with min
strictly below max, a positive interior length along the driving axis and
no active drag, the freshly computed value equals the input value exactly
(the exact-arithmetic model carries no rounding, so the round trip through
percentage and back is lossless, well within the claim's floating-point
tolerance). -/
theorem claim_C8_round_trip_stability (s : Slider) (p_i n_i : Interaction)
    (st : Style) (th : Theme) (m : Mouse) (v mn mx : ℚ)
    (hv : s.value = F.fin v) (hmn : s.min = F.fin mn) (hmx : s.max = F.fin mx)
    (hlt : mn < mx) (h0 : mn ≤ v) (h1 : v ≤ mx)
    (hinner : 0 < (if s.dim.1 > s.dim.2 then s.dim.1 else s.dim.2)
        - st.frame th * 2)
    (hnd : dragMatch (is_over_rect (0, 0) m.xy s.dim) p_i n_i = false) :
    s.new_value p_i n_i st th m = F.fin v := by
  rw [new_value_no_drag _ _ _ _ _ _ hnd, hv, hmn, hmx]
  by_cases hd : s.dim.1 > s.dim.2
  · rw [if_pos hd] at hinner
    rw [if_pos hd]
    exact round_trip_core v mn mx _ hlt h0 h1 hinner
  · rw [if_neg hd] at hinner
    rw [if_neg hd]
    exact round_trip_core v mn mx _ hlt h0 h1 hinner

/-- Counterexample for C8 as stated: with min = max = value = 1 (so the
claim's hypothesis min at most value at most max holds), positive interior
length and no drag active, the computed value is NaN, which is not within
any floating-point tolerance of the input value 1. -/
theorem claim_C8_counterexample :
    F.ble (F.fin 1) (F.fin 1) = true
    ∧ (0 : ℚ) < 192 - testStyle.frame testTheme * 2
    ∧ dragMatch (is_over_rect (0, 0) (1000, 1000) (192, 48)) .Normal .Normal
        = false
    ∧ (Slider.new (F.fin 1) (F.fin 1) (F.fin 1)).new_value .Normal .Normal
        testStyle testTheme { xy := (1000, 1000), left := .Up } = F.nan
    ∧ F.beq
        ((Slider.new (F.fin 1) (F.fin 1) (F.fin 1)).new_value .Normal .Normal
          testStyle testTheme { xy := (1000, 1000), left := .Up })
        (F.fin 1) = false := by
  with_unfolding_all decide

/-- Witness for C8 at the default geometry with value one half of the range
from 0 to 2, pointer away and released. -/
theorem claim_C8_round_trip_stability_witness :
    (Slider.new (F.fin (1/2)) (F.fin 0) (F.fin 2)).new_value .Normal .Normal
        testStyle testTheme { xy := (1000, 1000), left := .Up }
      = F.fin (1/2) :=
  claim_C8_round_trip_stability (Slider.new (F.fin (1/2)) (F.fin 0) (F.fin 2))
    .Normal .Normal testStyle testTheme { xy := (1000, 1000), left := .Up }
    (1/2) 0 2 rfl rfl rfl (by norm_num) (by norm_num) (by norm_num)
    (by norm_num [Slider.new, testStyle, testTheme, Style.frame])
    (dragMatch_normal _ _)

/-- C5 evaluation at the failing input: a 2 by 1 slider with frame
thickness 1 has interior length exactly 0 along its driving axis; the
update value computation divides the clamped extent 0 by the interior
length 0 and the freshly computed value is NaN, not finite — the reaction
would then fire with NaN, since NaN is unequal to the configured value
under the code's float disequality.  The draw extent, by contrast, does
clamp to 0 at the same state. -/
theorem claim_C5_zero_interior_produces_nan :
    ((2 : ℚ) - frameOneStyle.frame testTheme * 2 = 0)
    ∧ ({ Slider.new (F.fin 0) (F.fin 0) (F.fin 1) with
        dim := (2, 1) }).new_value .Normal .Normal frameOneStyle testTheme
        { xy := (1000, 1000), left := .Up } = F.nan
    ∧ F.bne (F.fin 0)
        (({ Slider.new (F.fin 0) (F.fin 0) (F.fin 1) with
          dim := (2, 1) }).new_value .Normal .Normal frameOneStyle testTheme
          { xy := (1000, 1000), left := .Up }) = true
    ∧ clamp (percentage (F.fin 0) (F.fin 0) (F.fin 1) * F.fin 0) (F.fin 0)
        (F.fin 0) = F.fin 0 := by
  with_unfolding_all decide

/-- Witness for C9 at a concrete state and two environments that differ
only in the mouse state. -/
theorem claim_C9_draw_ignores_pointer_witness :
    Slider.draw
        { state :=
            { value := F.fin 0, min := F.fin 0, max := F.fin 1
              maybe_label := some "ok", interaction := .Normal }
          dim := (192, 48), xy := (7, 9), depth := 0 }
        testStyle
        { theme := testTheme, mouse := { xy := (0, 0), left := .Down }
          xy := (7, 9), glyphWidth := fun _ _ => 10 }
      = Slider.draw
        { state :=
            { value := F.fin 0, min := F.fin 0, max := F.fin 1
              maybe_label := some "ok", interaction := .Normal }
          dim := (192, 48), xy := (7, 9), depth := 0 }
        testStyle
        { theme := testTheme, mouse := { xy := (50, 3), left := .Up }
          xy := (7, 9), glyphWidth := fun _ _ => 10 } :=
  claim_C9_draw_ignores_pointer _ _ _ _ rfl rfl

end Conrod
